import Mathlib

/-
Verification of the renderer bootstrap of the gitdesktop application
(src/app/src/ui/index.tsx): the crash-context capture performed by
sendErrorWithContext, the error-handler registration sequence, the
ipcRenderer lifecycle listeners, the unhandledrejection listener and the
once-only uncaughtException handler.

Shallow embedding conventions:
  - a JavaScript object used as a string-to-string map is an association
    list with unique keys; property assignment replaces the value in place
    (keeping insertion order) or appends a fresh key at the end;
  - a property read that may throw (a getter) is modelled as a value of
    type Except Unit rather than a plain value; the single try/catch of
    the source is modelled by running the reads in sequence and keeping,
    on the first failure, the assignments made so far;
  - stringification of numeric enums and numbers is modelled by explicit
    rendering functions whose exact output is never load-bearing for the
    properties proved here (only key presence and value provenance are).
-/

namespace GitDesktop

/-- CrashContext models the flat string-keyed `extra` object built by
sendErrorWithContext: an association list with unique keys in insertion
order. -/
abbrev CrashContext := List (String × String)

/-- Property assignment on a JavaScript object: replace the value of an
existing key in place, or append the key at the end. -/
def rset : CrashContext → String → String → CrashContext
  | [], k, v => [(k, v)]
  | p :: rest, k, v => if p.1 = k then (k, v) :: rest else p :: rset rest k v

/-- Property lookup on a JavaScript object. -/
def rget : CrashContext → String → Option String
  | [], _ => none
  | p :: rest, k => if p.1 = k then some p.2 else rget rest k

/-- SelectionType mirrors the numeric enum of lib/app-state (Repository,
CloningRepository, MissingRepository). -/
inductive SelectionType
  | Repository
  | CloningRepository
  | MissingRepository
deriving DecidableEq

/-- Template-literal rendering of the numeric SelectionType enum. -/
def SelectionType.toStr : SelectionType → String
  | .Repository => "0"
  | .CloningRepository => "1"
  | .MissingRepository => "2"

/-- The selection stored in IAppState.selectedState: a tagged state that
always carries a repository and, for a plain repository selection, the
selected section (already rendered to a string). -/
inductive SelectedState
  | repository (repo : String) (selectedSection : String)
  | cloningRepository (repo : String)
  | missingRepository (repo : String)
deriving DecidableEq

def SelectedState.type : SelectedState → SelectionType
  | .repository _ _ => .Repository
  | .cloningRepository _ => .CloningRepository
  | .missingRepository _ => .MissingRepository

def SelectedState.repoName : SelectedState → String
  | .repository r _ => r
  | .cloningRepository r => r
  | .missingRepository r => r

/-- Rendering of state.selectedSection; the source only reads it when the
selection is a plain repository. -/
def SelectedState.selectedSection : SelectedState → String
  | .repository _ s => s
  | .cloningRepository _ => ""
  | .missingRepository _ => ""

/-- FAppState is the view of IAppState that sendErrorWithContext reads.
Each field is the corresponding property read; Except Unit models that a
read may throw (the source wraps the whole read sequence in one
try/catch). Option models a nullable property; banner, popup and foldout
carry their already-rendered type tag. -/
structure FAppState where
  currentBanner : Except Unit (Option String)
  currentPopup : Except Unit (Option String)
  selectedState : Except Unit (Option SelectedState)
  currentFoldout : Except Unit (Option String)
  showWelcomeFlow : Except Unit Bool
  windowZoomFactor : Except Unit ℚ
  errors : Except Unit (List String)
  repositories : Except Unit (List String)
  windowState : Except Unit String
  accounts : Except Unit (List String)
  automaticallySwitchTheme : Except Unit Bool

/-- Rendering of the window zoom factor number; the exact text is never
load-bearing, only whether the key is present. -/
def zoomStr (q : ℚ) : String :=
  toString q.num ++ "/" ++ toString q.den

/-- Environment of the renderer process: build flags, platform, and the
values returned by getOS and getGUID, plus withSourceMappedStack. -/
structure Env where
  dev : Bool
  testEnv : Bool
  darwin : Bool
  osVersion : String
  guid : String
  sourceMapped : String → String

/-- The module-level mutable bindings of index.tsx: currentState (kept in
sync by appStore.onDidUpdate), lastUnhandledRejection and
lastUnhandledRejectionTime (timestamps are modelled as naturals). -/
structure Globals where
  currentState : Option FAppState
  lastUnhandledRejection : Option String
  lastUnhandledRejectionTime : Option Nat

/-- Observable effects of the bootstrap code: the unconditional
console.error, the extra dev/test console.error, the sendErrorReport proxy
call and the reportUncaughtException proxy call. -/
inductive Output
  | consoleError (err : String)
  | consoleDevLog
  | reportSent (err : String) (context : CrashContext) (nonFatal : Option Bool)
  | reportUncaughtException (err : String)
deriving DecidableEq

def Output.isReportSent : Output → Bool
  | .reportSent _ _ _ => true
  | _ => false

/-- The object literal that seeds `extra`: osVersion and guid in literal
order, then the spread of the caller-supplied context (later entries
overriding). -/
def mkExtra (env : Env) (context : List (String × String)) : CrashContext :=
  context.foldl (fun r kv => rset r kv.1 kv.2)
    [("osVersion", env.osVersion), ("guid", env.guid)]

/-- One statement of the try block: a read that may throw followed by
assignments to `extra`. -/
abbrev ExtractStep := CrashContext → Except Unit CrashContext

/-- Runs the statements of the try block in order; when one throws, the
surrounding catch discards the exception but the assignments already made
remain (extra is mutated in place in the source). -/
def runSteps : List ExtractStep → CrashContext → CrashContext
  | [], r => r
  | s :: rest, r =>
    match s r with
    | .ok r2 => runSteps rest r2
    | .error _ => r

def stepBanner (s : FAppState) : ExtractStep := fun r =>
  match s.currentBanner with
  | .error e => .error e
  | .ok cb => .ok (cb.elim r fun t => rset r "currentBanner" t)

def stepPopup (s : FAppState) : ExtractStep := fun r =>
  match s.currentPopup with
  | .error e => .error e
  | .ok cp => .ok (cp.elim r fun t => rset r "currentPopup" t)

def stepSelected (s : FAppState) : ExtractStep := fun r =>
  match s.selectedState with
  | .error e => .error e
  | .ok sel => .ok (sel.elim r fun ss =>
      let r1 := rset r "selectedState" ss.type.toStr
      if ss.type = SelectionType.Repository then
        rset r1 "selectedRepositorySection" ss.selectedSection
      else r1)

def stepFoldout (s : FAppState) : ExtractStep := fun r =>
  match s.currentFoldout with
  | .error e => .error e
  | .ok cf => .ok (cf.elim r fun t => rset r "currentFoldout" t)

def stepWelcome (s : FAppState) : ExtractStep := fun r =>
  match s.showWelcomeFlow with
  | .error e => .error e
  | .ok w => .ok (if w then rset r "inWelcomeFlow" "true" else r)

def stepZoom (s : FAppState) : ExtractStep := fun r =>
  match s.windowZoomFactor with
  | .error e => .error e
  | .ok z => .ok (if z ≠ 1 then rset r "windowZoomFactor" (zoomStr z) else r)

def stepErrors (s : FAppState) : ExtractStep := fun r =>
  match s.errors with
  | .error e => .error e
  | .ok es => .ok (if es.length > 0 then
      rset r "activeAppErrors" (toString es.length) else r)

/-- The lastUnhandledRejection block: both module-level bindings must be
non-null for the two keys to be written. The reads are plain local
variables and cannot throw. -/
def stepRejection (lur : Option String) (lurTime : Option Nat) : ExtractStep := fun r =>
  .ok (lur.elim r fun text => lurTime.elim r fun t =>
    rset (rset r "lastUnhandledRejection" text)
      "lastUnhandledRejectionTime" (toString t))

def stepRepositoryCount (s : FAppState) : ExtractStep := fun r =>
  match s.repositories with
  | .error e => .error e
  | .ok rs => .ok (rset r "repositoryCount" (toString rs.length))

def stepWindowState (s : FAppState) : ExtractStep := fun r =>
  match s.windowState with
  | .error e => .error e
  | .ok w => .ok (rset r "windowState" w)

def stepAccounts (s : FAppState) : ExtractStep := fun r =>
  match s.accounts with
  | .error e => .error e
  | .ok ac => .ok (rset r "accounts" (toString ac.length))

def stepTheme (darwin : Bool) (s : FAppState) : ExtractStep := fun r =>
  if darwin then
    match s.automaticallySwitchTheme with
    | .error e => .error e
    | .ok th => .ok (rset r "automaticallySwitchTheme" (toString th))
  else .ok r

/-- The statements of the try block of sendErrorWithContext in source
order, entered only when currentState is non-null. -/
def extractSteps (s : FAppState) (lur : Option String) (lurTime : Option Nat)
    (darwin : Bool) : List ExtractStep :=
  [stepBanner s, stepPopup s, stepSelected s, stepFoldout s,
   stepWelcome s, stepZoom s, stepErrors s, stepRejection lur lurTime,
   stepRepositoryCount s, stepWindowState s, stepAccounts s,
   stepTheme darwin s]

/-- The body of the try block of sendErrorWithContext: the statements in
source order, under a single failure boundary. -/
def extract (s : FAppState) (lur : Option String) (lurTime : Option Nat)
    (darwin : Bool) (r : CrashContext) : CrashContext :=
  runSteps (extractSteps s lur lurTime darwin) r

/-- Runs a sequence of try-block statements requiring every one of them
to succeed; used to describe the prefix of the extraction that completed
before a failing field read. -/
def runStepsOk : List ExtractStep → CrashContext → Option CrashContext
  | [], r => some r
  | s :: rest, r =>
    match s r with
    | .ok r2 => runStepsOk rest r2
    | .error _ => none

/-- The `extra` object as it stands when sendErrorReport is called: the
seeded literal, then the snapshot-derived assignments when currentState
is non-null. -/
def builtContext (env : Env) (g : Globals)
    (context : List (String × String)) : CrashContext :=
  match g.currentState with
  | none => mkExtra env context
  | some s =>
      extract s g.lastUnhandledRejection g.lastUnhandledRejectionTime
        env.darwin (mkExtra env context)

/-- Embedding of sendErrorWithContext (src/app/src/ui/index.tsx lines
96-176), returning the emitted effects in order: the unconditional
console.error, then either the dev/test console message or exactly one
sendErrorReport call carrying the built context. -/
def sendErrorWithContext (env : Env) (g : Globals) (error : String)
    (context : List (String × String)) (nonFatal : Option Bool) : List Output :=
  let err := env.sourceMapped error
  Output.consoleError err ::
    (if env.dev || env.testEnv then
      [Output.consoleDevLog]
    else
      [Output.reportSent err (builtContext env g context) nonFatal])

/-- The named error handlers imported and registered by index.tsx, one
tag per handler. -/
inductive ErrorHandlerTag
  | defaultErrorHandler
  | upstreamAlreadyExistsHandler
  | externalEditorErrorHandler
  | openShellErrorHandler
  | mergeConflictHandler
  | lfsAttributeMismatchHandler
  | gitAuthenticationErrorHandler
  | pushNeedsPullHandler
  | backgroundTaskHandler
  | missingRepositoryHandler
  | localChangesOverwrittenHandler
  | rebaseConflictsHandler
  | refusedWorkflowUpdate
deriving DecidableEq

/-- The dispatcher as far as its error-handler chain is concerned. -/
structure DispatcherModel where
  errorHandlers : List ErrorHandlerTag
deriving DecidableEq

/-- Modelled from the spec: Dispatcher.registerErrorHandler lives in
ui/dispatcher, which is not part of the visible sources; per the spec it
appends the handler to the ordered chain with no de-duplication. -/
def DispatcherModel.registerErrorHandler (d : DispatcherModel)
    (h : ErrorHandlerTag) : DispatcherModel :=
  { d with errorHandlers := d.errorHandlers ++ [h] }

/-- The registration sequence performed once at startup by index.tsx
(lines 269-281), in source order on a fresh dispatcher. -/
def startupDispatcher : DispatcherModel :=
  (DispatcherModel.mk []
    |>.registerErrorHandler .defaultErrorHandler
    |>.registerErrorHandler .upstreamAlreadyExistsHandler
    |>.registerErrorHandler .externalEditorErrorHandler
    |>.registerErrorHandler .openShellErrorHandler
    |>.registerErrorHandler .mergeConflictHandler
    |>.registerErrorHandler .lfsAttributeMismatchHandler
    |>.registerErrorHandler .gitAuthenticationErrorHandler
    |>.registerErrorHandler .pushNeedsPullHandler
    |>.registerErrorHandler .backgroundTaskHandler
    |>.registerErrorHandler .missingRepositoryHandler
    |>.registerErrorHandler .localChangesOverwrittenHandler
    |>.registerErrorHandler .rebaseConflictsHandler
    |>.registerErrorHandler .refusedWorkflowUpdate)

/-- Dispatcher methods invoked by the ipcRenderer listeners. URL actions
are identified by their payload rendering. -/
inductive DispatcherCall
  | setAppFocusState (isFocused : Bool)
  | setAccessKeyHighlightState (highlight : Bool)
  | dispatchURLAction (action : String)
  | refreshRepository (repo : String)
deriving DecidableEq

/-- The ipcRenderer channels index.tsx subscribes to. -/
inductive IpcSignal
  | focus
  | blur
  | urlAction (action : String)

/-- Embedding of the three ipcRenderer.on listeners (lines 287-315):
the dispatcher calls each signal produces, in order. The focus listener
first reads appStore.getState().selectedState, here passed in as
selectedState. -/
def onIpcSignal (selectedState : Option SelectedState) :
    IpcSignal → List DispatcherCall
  | .focus =>
      (match selectedState with
       | some ss =>
           if ss.type = SelectionType.CloningRepository then []
           else [.refreshRepository ss.repoName]
       | none => []) ++ [.setAppFocusState true]
  | .blur => [.setAccessKeyHighlightState false, .setAppFocusState false]
  | .urlAction a => [.dispatchURLAction a]

/-- Embedding of the unhandledrejection listener (lines 205-214): none
models a null or undefined reason, which leaves the module-level
bindings untouched; for any other reason the template-literal
stringification runs inside the listener's try/catch and may itself
throw (some (.error ())), in which case the catch silently discards the
failure before either assignment, so both bindings stay unchanged; when
it succeeds (some (.ok text)) the rendering is recorded together with
the current time. The listener emits no effects in any case. -/
def onUnhandledRejection (g : Globals)
    (reason : Option (Except Unit String)) (now : Nat) :
    Globals × List Output :=
  match reason with
  | none => (g, [])
  | some (.error _) => (g, [])
  | some (.ok text) =>
      ({ g with
          lastUnhandledRejection := some text
          lastUnhandledRejectionTime := some now }, [])

/-- One delivery of an uncaughtException event against the once-only
listener (lines 178-181): active tells whether the listener installed by
process.once is still registered; it is removed before the handler body
runs, and the body sends a report and then the fatal notification. -/
def emitUncaughtException (env : Env) (g : Globals) (active : Bool)
    (error : String) : Bool × List Output :=
  if active then
    (false, sendErrorWithContext env g error [] none
      ++ [Output.reportUncaughtException error])
  else (active, [])

/-- A whole sequence of uncaughtException deliveries, threading the
once-only registration state. -/
def emitUncaughtExceptions (env : Env) (g : Globals) :
    Bool → List String → List Output
  | _, [] => []
  | active, e :: rest =>
      let p := emitUncaughtException env g active e
      p.2 ++ emitUncaughtExceptions env g p.1 rest

/-! Basic lemmas about the object model. -/

theorem rget_rset (r : CrashContext) (k v k2 : String) :
    rget (rset r k v) k2 = if k2 = k then some v else rget r k2 := by
  induction r with
  | nil =>
    simp only [rset, rget]
    rcases eq_or_ne k2 k with h | h
    · subst h; simp
    · simp [h, Ne.symm h]
  | cons p rest ih =>
    simp only [rset]
    by_cases hpk : p.1 = k
    · simp only [hpk, if_pos rfl, rget]
      rcases eq_or_ne k2 k with h | h
      · subst h; simp
      · simp [h, Ne.symm h]
    · simp only [if_neg hpk, rget, ih]
      rcases eq_or_ne k2 p.1 with h | h
      · subst h; simp [hpk, Ne.symm hpk]
      · simp [Ne.symm h, h]

theorem rget_ite (c : Prop) [Decidable c] (a b : CrashContext) (k : String) :
    rget (if c then a else b) k = if c then rget a k else rget b k := by
  split <;> rfl

theorem rget_elim {α : Type} (o : Option α) (r : CrashContext)
    (f : α → CrashContext) (k : String) :
    rget (o.elim r f) k = o.elim (rget r k) (fun x => rget (f x) k) := by
  cases o <;> rfl

theorem optElim_const {α β : Type} (o : Option α) (c : β) :
    o.elim c (fun _ => c) = c := by
  cases o <;> rfl

theorem mkExtra_nil (env : Env) :
    mkExtra env [] = [("osVersion", env.osVersion), ("guid", env.guid)] := rfl

theorem isSome_rget_rset (r : CrashContext) (k v k2 : String) :
    (rget (rset r k v) k2).isSome ↔ k2 = k ∨ (rget r k2).isSome := by
  rw [rget_rset]
  rcases eq_or_ne k2 k with h | h <;> simp [h]

/-- Keys present after seeding `extra`: exactly osVersion, guid, and the
keys of the caller-supplied context. -/
theorem isSome_rget_mkExtra (env : Env) (context : List (String × String))
    (k : String) :
    (rget (mkExtra env context) k).isSome ↔
      k = "osVersion" ∨ k = "guid" ∨ ∃ kv ∈ context, kv.1 = k := by
  have main : ∀ (ctx : List (String × String)) (r : CrashContext),
      (rget (ctx.foldl (fun acc kv => rset acc kv.1 kv.2) r) k).isSome ↔
        (rget r k).isSome ∨ ∃ kv ∈ ctx, kv.1 = k := by
    intro ctx
    induction ctx with
    | nil => intro r; simp
    | cons kv tl ih =>
      intro r
      simp only [List.foldl_cons, ih, isSome_rget_rset, List.mem_cons]
      constructor
      · rintro ((h | h) | ⟨p, hp, hk⟩)
        · exact Or.inr ⟨kv, Or.inl rfl, h.symm⟩
        · exact Or.inl h
        · exact Or.inr ⟨p, Or.inr hp, hk⟩
      · rintro (h | ⟨p, (rfl | hp), hk⟩)
        · exact Or.inl (Or.inr h)
        · exact Or.inl (Or.inl hk.symm)
        · exact Or.inr ⟨p, hp, hk⟩
  rw [mkExtra, main]
  simp only [rget]
  rcases eq_or_ne k "osVersion" with h1 | h1
  · simp [h1]
  · rcases eq_or_ne k "guid" with h2 | h2
    · subst h2; simp [h1, Ne.symm h1]
    · simp [h1, h2, Ne.symm h1, Ne.symm h2]

/-- Lookup through a spread of caller entries none of which carries the
queried key is lookup in the seed object. -/
theorem rget_foldl_of_not_key (ctx : List (String × String)) :
    ∀ (r : CrashContext) (k : String), (∀ kv ∈ ctx, kv.1 ≠ k) →
      rget (ctx.foldl (fun acc kv => rset acc kv.1 kv.2) r) k = rget r k := by
  induction ctx with
  | nil => intro r k _; rfl
  | cons kv tl ih =>
    intro r k h
    simp only [List.foldl_cons]
    rw [ih _ _ fun p hp => h p (List.mem_cons_of_mem kv hp)]
    rw [rget_rset]
    exact if_neg fun hk => h kv (List.mem_cons_self kv tl) hk.symm

/-- In the seeded `extra` object, a caller-supplied entry wins over the
baseline value of the same key provided no later caller entry carries
that key again. -/
theorem rget_mkExtra_last (env : Env) (ctx1 ctx2 : List (String × String))
    (k v : String) (h : ∀ kv ∈ ctx2, kv.1 ≠ k) :
    rget (mkExtra env (ctx1 ++ (k, v) :: ctx2)) k = some v := by
  unfold mkExtra
  rw [List.foldl_append, List.foldl_cons, rget_foldl_of_not_key ctx2 _ _ h,
    rget_rset]
  simp

/-- If every statement before a failing one succeeds, the single failure
boundary stops the whole run at the failure: the statements after it
never execute and the result is exactly the context accumulated before
the failure. -/
theorem runSteps_append_error (pre post : List ExtractStep)
    (f : ExtractStep) (r0 r1 : CrashContext)
    (hpre : runStepsOk pre r0 = some r1) (hfail : f r1 = .error ()) :
    runSteps (pre ++ f :: post) r0 = r1 := by
  induction pre generalizing r0 with
  | nil =>
    simp only [runStepsOk, Option.some.injEq] at hpre
    subst hpre
    simp [runSteps, hfail]
  | cons p pre' ih =>
    simp only [runStepsOk] at hpre
    cases hp : p r0 with
    | ok r2 =>
      rw [hp] at hpre
      simp only [List.cons_append, runSteps, hp]
      exact ih r2 hpre
    | error e =>
      rw [hp] at hpre
      simp at hpre

/-- Once the once-only uncaughtException listener has fired, later
deliveries produce no effects at all. -/
theorem emitUncaughtExceptions_inactive (env : Env) (g : Globals)
    (l : List String) : emitUncaughtExceptions env g false l = [] := by
  induction l with
  | nil => rfl
  | cons e rest ih =>
    simp [emitUncaughtExceptions, emitUncaughtException, ih]

/-! Concrete fixtures used to evaluate the theorems on closed inputs. -/

/-- A production (non-dev, non-test, non-darwin) environment. -/
def env0 : Env := ⟨false, false, false, "os-x", "guid-1", fun e => e⟩

/-- A snapshot whose currentBanner read throws while every later read
succeeds (currentPopup in particular is non-null). -/
def sBad : FAppState :=
  ⟨.error (), .ok (some "5"), .ok none, .ok none, .ok false, .ok 1,
   .ok [], .ok [], .ok "normal", .ok [], .ok false⟩

/-- A fully readable snapshot with default UI state, no active errors,
two repositories and one account. -/
def sDefault : FAppState :=
  ⟨.ok none, .ok none, .ok none, .ok none, .ok false, .ok 1,
   .ok [], .ok ["a", "b"], .ok "normal", .ok ["acct"], .ok false⟩

/-- A snapshot whose first two field reads succeed (banner and popup
both non-null) and whose third read (selectedState) throws, while every
later read succeeds. -/
def sBad2 : FAppState :=
  ⟨.ok (some "b-kind"), .ok (some "5"), .error (), .ok none, .ok false,
   .ok 1, .ok [], .ok [], .ok "normal", .ok [], .ok false⟩

/-- A fully readable snapshot like sDefault but with a non-null banner,
used to exercise a conditionally written snapshot-derived key. -/
def sBanner : FAppState :=
  ⟨.ok (some "update-available"), .ok none, .ok none, .ok none, .ok false,
   .ok 1, .ok [], .ok ["a", "b"], .ok "normal", .ok ["acct"], .ok false⟩

/-- C3: the error handler chain is registered exactly once at startup,
with the terminal defaultErrorHandler first, followed by exactly the
twelve specialized handlers in the fixed source order, no handler
registered twice. -/
theorem c3_handler_chain_registration :
    startupDispatcher.errorHandlers =
      [.defaultErrorHandler, .upstreamAlreadyExistsHandler,
       .externalEditorErrorHandler, .openShellErrorHandler,
       .mergeConflictHandler, .lfsAttributeMismatchHandler,
       .gitAuthenticationErrorHandler, .pushNeedsPullHandler,
       .backgroundTaskHandler, .missingRepositoryHandler,
       .localChangesOverwrittenHandler, .rebaseConflictsHandler,
       .refusedWorkflowUpdate]
    ∧ startupDispatcher.errorHandlers.head? =
        some ErrorHandlerTag.defaultErrorHandler
    ∧ startupDispatcher.errorHandlers.length = 13
    ∧ startupDispatcher.errorHandlers.Nodup := by
  refine ⟨rfl, rfl, rfl, ?_⟩
  decide

/-- C4: in development or test mode the routed error is logged verbosely
and the external reporting sink is never called; in production the sink
is called exactly once per routed error. -/
theorem c4_dev_logs_production_reports (env : Env) (g : Globals)
    (err : String) (ctx : List (String × String)) (nf : Option Bool) :
    ((sendErrorWithContext env g err ctx nf).countP Output.isReportSent =
      if env.dev || env.testEnv then 0 else 1)
    ∧ (Output.consoleDevLog ∈ sendErrorWithContext env g err ctx nf ↔
        (env.dev || env.testEnv) = true) := by
  unfold sendErrorWithContext
  cases hb : env.dev || env.testEnv <;>
    simp [hb, List.countP_cons, Output.isReportSent]

/-- C8 counterexample: a reason that is neither null nor undefined but
whose stringification throws (the listener's try/catch swallows the
TypeError before any assignment, as for a Symbol reason): the
last-unhandled-rejection bindings stay unchanged, refuting that every
non-nullish reason gets recorded. -/
theorem c8_nonstringifiable_reason_counterexample :
    (some (Except.error ()) : Option (Except Unit String)) ≠ none
    ∧ onUnhandledRejection ⟨none, none, none⟩ (some (.error ())) 5 =
        (⟨none, none, none⟩, [])
    ∧ (⟨none, none, none⟩ : Globals).lastUnhandledRejection = none := by
  refine ⟨by simp, rfl, rfl⟩

/-- C8 amended: an unhandled rejection with a non-null, non-undefined
reason whose stringification succeeds records the stringified reason and
the current time into the module-level bindings; a null or undefined
reason, or a reason whose stringification throws inside the listener's
try/catch, leaves the bindings unchanged; in every case the listener
emits no report call and no process termination. -/
theorem c8_unhandled_rejection_recorded (g : Globals) (text : String)
    (now : Nat) :
    onUnhandledRejection g (some (.ok text)) now =
      ({ g with
          lastUnhandledRejection := some text
          lastUnhandledRejectionTime := some now }, [])
    ∧ onUnhandledRejection g none now = (g, [])
    ∧ onUnhandledRejection g (some (.error ())) now = (g, []) :=
  ⟨rfl, rfl, rfl⟩

/-- C9: the once-only uncaughtException listener fires for the first
delivered exception only: the whole effect sequence of any run equals the
report plus fatal notification for the first exception, with later
exceptions contributing nothing. -/
theorem c9_uncaught_exception_once (env : Env) (g : Globals) (e : String)
    (rest : List String) :
    emitUncaughtExceptions env g true (e :: rest) =
      sendErrorWithContext env g e [] none
        ++ [Output.reportUncaughtException e] := by
  simp [emitUncaughtExceptions, emitUncaughtException,
    emitUncaughtExceptions_inactive]

/-- C1: with a null snapshot in production mode, the error report is
still sent, its context is exactly the seeded literal, and a key is
present in that context precisely when it is one of the baseline keys
(osVersion, guid) or a caller-supplied key; no snapshot-derived key can
appear. -/
theorem c1_null_snapshot_baseline_only (env : Env) (g : Globals)
    (err : String) (ctx : List (String × String)) (nf : Option Bool)
    (k : String) (hdev : env.dev = false) (htest : env.testEnv = false)
    (hnull : g.currentState = none) :
    sendErrorWithContext env g err ctx nf =
      [Output.consoleError (env.sourceMapped err),
       Output.reportSent (env.sourceMapped err) (mkExtra env ctx) nf]
    ∧ ((rget (mkExtra env ctx) k).isSome ↔
        k = "osVersion" ∨ k = "guid" ∨ ∃ kv ∈ ctx, kv.1 = k) := by
  constructor
  · simp [sendErrorWithContext, builtContext, hdev, htest, hnull]
  · exact isSome_rget_mkExtra env ctx k

theorem c1_null_snapshot_baseline_only_witness :
    env0.dev = false ∧ (⟨none, none, none⟩ : Globals).currentState = none ∧
    (sendErrorWithContext env0 ⟨none, none, none⟩ "boom"
        [("extraKey", "v")] none =
      [Output.consoleError "boom",
       Output.reportSent "boom" (mkExtra env0 [("extraKey", "v")]) none]
    ∧ ((rget (mkExtra env0 [("extraKey", "v")]) "currentPopup").isSome ↔
        "currentPopup" = "osVersion" ∨ "currentPopup" = "guid" ∨
        ∃ kv ∈ [("extraKey", "v")], kv.1 = "currentPopup")) :=
  ⟨rfl, rfl,
    c1_null_snapshot_baseline_only env0 ⟨none, none, none⟩ "boom"
      [("extraKey", "v")] none "currentPopup" rfl rfl rfl⟩

/-- C7 counterexample: the claim says every focus event results in
setAppFocusState(true) with no other signal-to-dispatcher mapping, but a
focus event delivered while a plain repository is selected also issues a
refreshRepository call. -/
theorem c7_focus_only_mapping_counterexample :
    ¬ (∀ c ∈ onIpcSignal (some (SelectedState.repository "repo" "0"))
          IpcSignal.focus, c = DispatcherCall.setAppFocusState true) := by
  decide

/-- C7 amended: blur maps to setAccessKeyHighlightState(false) then
setAppFocusState(false), url-action maps to dispatchURLAction on the
payload action, focus always ends with setAppFocusState(true) and in
addition issues exactly a refreshRepository call for the selected
repository whenever a selection exists and it is not a cloning
repository; focus produces no other kind of call. -/
theorem c7_lifecycle_signal_mapping (ss : Option SelectedState)
    (a r : String) :
    onIpcSignal ss IpcSignal.blur =
      [DispatcherCall.setAccessKeyHighlightState false,
       DispatcherCall.setAppFocusState false]
    ∧ onIpcSignal ss (IpcSignal.urlAction a) =
        [DispatcherCall.dispatchURLAction a]
    ∧ (onIpcSignal ss IpcSignal.focus).getLast? =
        some (DispatcherCall.setAppFocusState true)
    ∧ (DispatcherCall.refreshRepository r ∈ onIpcSignal ss IpcSignal.focus ↔
        ∃ s, ss = some s ∧ s.type ≠ SelectionType.CloningRepository ∧
          s.repoName = r)
    ∧ (∀ c ∈ onIpcSignal ss IpcSignal.focus,
        c = DispatcherCall.setAppFocusState true ∨
          ∃ rr, c = DispatcherCall.refreshRepository rr) := by
  refine ⟨rfl, rfl, ?_, ?_, ?_⟩
  · cases ss with
    | none => rfl
    | some s =>
      simp only [onIpcSignal]
      split <;> simp
  · cases ss with
    | none => simp [onIpcSignal]
    | some s =>
      simp only [onIpcSignal]
      split <;> (simp_all; try tauto)
  · cases ss with
    | none => simp [onIpcSignal]
    | some s =>
      simp only [onIpcSignal]
      split <;> (intro c hc; simp_all; try tauto)

/-- C2 counterexample: a snapshot whose first field read (currentBanner)
throws while currentPopup is readable and non-null; the single
try/catch aborts the whole extraction, so currentPopup is absent from
the sent context even though its extractor would have succeeded,
refuting the per-field failure boundary. -/
theorem c2_per_field_boundary_counterexample :
    sBad.currentBanner = Except.error ()
    ∧ sBad.currentPopup = Except.ok (some "5")
    ∧ sendErrorWithContext env0 ⟨some sBad, none, none⟩ "boom" [] none =
        [Output.consoleError "boom",
         Output.reportSent "boom"
           [("osVersion", "os-x"), ("guid", "guid-1")] none]
    ∧ rget [("osVersion", "os-x"), ("guid", "guid-1")] "currentPopup" =
        none := by
  refine ⟨rfl, rfl, ?_, rfl⟩
  decide

/-- C2 amended: the whole snapshot-derived extraction sits under one
failure boundary: whichever field read throws (any position in the
statement sequence), the failure is silently discarded, every later
snapshot-derived field is skipped, and the report is still sent — its
context being exactly the one accumulated before the failure (the
baseline keys, the caller-supplied entries and the fields derived
before the failing one). -/
theorem c2_single_failure_boundary (env : Env) (g : Globals) (err : String)
    (ctx : List (String × String)) (nf : Option Bool) (s : FAppState)
    (pre post : List ExtractStep) (f : ExtractStep) (r1 : CrashContext)
    (hdev : env.dev = false) (htest : env.testEnv = false)
    (hs : g.currentState = some s)
    (hsplit : extractSteps s g.lastUnhandledRejection
        g.lastUnhandledRejectionTime env.darwin = pre ++ f :: post)
    (hpre : runStepsOk pre (mkExtra env ctx) = some r1)
    (hfail : f r1 = .error ()) :
    sendErrorWithContext env g err ctx nf =
      [Output.consoleError (env.sourceMapped err),
       Output.reportSent (env.sourceMapped err) r1 nf] := by
  have hb : builtContext env g ctx = r1 := by
    simp only [builtContext, hs, extract, hsplit]
    exact runSteps_append_error pre post f _ r1 hpre hfail
  simp [sendErrorWithContext, hdev, htest, hb]

theorem c2_single_failure_boundary_witness :
    env0.dev = false ∧ sBad2.selectedState = Except.error () ∧
    runStepsOk [stepBanner sBad2, stepPopup sBad2] (mkExtra env0 []) =
      some [("osVersion", "os-x"), ("guid", "guid-1"),
            ("currentBanner", "b-kind"), ("currentPopup", "5")] ∧
    sendErrorWithContext env0 ⟨some sBad2, none, none⟩ "boom" [] none =
      [Output.consoleError "boom",
       Output.reportSent "boom"
         [("osVersion", "os-x"), ("guid", "guid-1"),
          ("currentBanner", "b-kind"), ("currentPopup", "5")] none] :=
  ⟨rfl, rfl, rfl,
    c2_single_failure_boundary env0 ⟨some sBad2, none, none⟩ "boom"
      [] none sBad2 [stepBanner sBad2, stepPopup sBad2]
      [stepFoldout sBad2, stepWelcome sBad2, stepZoom sBad2,
       stepErrors sBad2, stepRejection none none,
       stepRepositoryCount sBad2, stepWindowState sBad2,
       stepAccounts sBad2, stepTheme false sBad2]
      (stepSelected sBad2)
      [("osVersion", "os-x"), ("guid", "guid-1"),
       ("currentBanner", "b-kind"), ("currentPopup", "5")]
      rfl rfl rfl rfl rfl rfl⟩

/-- C6 amended: for a readable non-null snapshot in production mode the
report context always carries repositoryCount, windowState and accounts;
activeAppErrors is present precisely when at least one non-fatal error is
active (not unconditionally, as claimed); windowZoomFactor is present
precisely when the zoom differs from 1 and inWelcomeFlow precisely when
the welcome flow is active. Stated for a report built with no
caller-supplied context entries. -/
theorem c6_production_snapshot_context (env : Env) (g : Globals)
    (err : String) (nf : Option Bool) (s : FAppState)
    (cb cp fo : Option String) (sel : Option SelectedState) (wf : Bool)
    (z : ℚ) (es rs ac : List String) (ws : String) (th : Bool)
    (hdev : env.dev = false) (htest : env.testEnv = false)
    (hs : g.currentState = some s)
    (h1 : s.currentBanner = .ok cb) (h2 : s.currentPopup = .ok cp)
    (h3 : s.selectedState = .ok sel) (h4 : s.currentFoldout = .ok fo)
    (h5 : s.showWelcomeFlow = .ok wf) (h6 : s.windowZoomFactor = .ok z)
    (h7 : s.errors = .ok es) (h8 : s.repositories = .ok rs)
    (h9 : s.windowState = .ok ws) (h10 : s.accounts = .ok ac)
    (h11 : s.automaticallySwitchTheme = .ok th) :
    sendErrorWithContext env g err [] nf =
      [Output.consoleError (env.sourceMapped err),
       Output.reportSent (env.sourceMapped err) (builtContext env g []) nf]
    ∧ rget (builtContext env g []) "repositoryCount" =
        some (toString rs.length)
    ∧ rget (builtContext env g []) "windowState" = some ws
    ∧ rget (builtContext env g []) "accounts" = some (toString ac.length)
    ∧ ((rget (builtContext env g []) "activeAppErrors").isSome ↔
        0 < es.length)
    ∧ ((rget (builtContext env g []) "windowZoomFactor").isSome ↔ z ≠ 1)
    ∧ ((rget (builtContext env g []) "inWelcomeFlow").isSome ↔ wf = true) := by
  refine ⟨by simp [sendErrorWithContext, hdev, htest], ?_, ?_, ?_, ?_, ?_, ?_⟩ <;>
    cases hdw : env.darwin <;>
    simp only [builtContext, hs, extract, runSteps, stepBanner, stepPopup,
      stepSelected, stepFoldout, stepWelcome, stepZoom, stepErrors,
      stepRejection, stepRepositoryCount, stepWindowState, stepAccounts,
      stepTheme, hdw, h1, h2, h3, h4, h5, h6, h7, h8, h9, h10, h11,
      mkExtra_nil, Bool.false_eq_true, if_false, if_true] <;>
    simp [rget_elim, rget_ite, rget_rset, optElim_const, rget]

theorem c6_production_snapshot_context_witness :
    env0.dev = false ∧ sDefault.errors = Except.ok [] ∧
    (sendErrorWithContext env0 ⟨some sDefault, none, none⟩ "e" [] none =
      [Output.consoleError "e",
       Output.reportSent "e"
         (builtContext env0 ⟨some sDefault, none, none⟩ []) none]
    ∧ rget (builtContext env0 ⟨some sDefault, none, none⟩ [])
        "repositoryCount" = some (toString (["a", "b"] : List String).length)
    ∧ rget (builtContext env0 ⟨some sDefault, none, none⟩ [])
        "windowState" = some "normal"
    ∧ rget (builtContext env0 ⟨some sDefault, none, none⟩ [])
        "accounts" = some (toString (["acct"] : List String).length)
    ∧ ((rget (builtContext env0 ⟨some sDefault, none, none⟩ [])
        "activeAppErrors").isSome ↔ 0 < ([] : List String).length)
    ∧ ((rget (builtContext env0 ⟨some sDefault, none, none⟩ [])
        "windowZoomFactor").isSome ↔ (1 : ℚ) ≠ 1)
    ∧ ((rget (builtContext env0 ⟨some sDefault, none, none⟩ [])
        "inWelcomeFlow").isSome ↔ false = true)) :=
  ⟨rfl, rfl,
    c6_production_snapshot_context env0 ⟨some sDefault, none, none⟩ "e" none
      sDefault none none none none false 1 [] ["a", "b"] ["acct"] "normal"
      false rfl rfl rfl rfl rfl rfl rfl rfl rfl rfl rfl rfl rfl rfl⟩

/-- C6 counterexample: a readable non-null snapshot with zero active
errors, in production mode: the claimed always-present count of active
non-fatal errors is absent from the built context. -/
theorem c6_active_errors_key_counterexample :
    (⟨some sDefault, none, none⟩ : Globals).currentState.isSome = true
    ∧ env0.dev = false ∧ env0.testEnv = false
    ∧ sDefault.errors = Except.ok []
    ∧ rget (builtContext env0 ⟨some sDefault, none, none⟩ [])
        "activeAppErrors" = none := by
  refine ⟨rfl, rfl, rfl, rfl, ?_⟩
  decide

/-- C5 counterexample: an unhandled rejection has been recorded but the
snapshot is still null; in production mode the report is sent without the
lastUnhandledRejection key, so inclusion is not independent of the
snapshot. -/
theorem c5_rejection_key_needs_snapshot_counterexample :
    (⟨none, some "boom", some 0⟩ : Globals).lastUnhandledRejection =
      some "boom"
    ∧ sendErrorWithContext env0 ⟨none, some "boom", some 0⟩ "e" [] none =
        [Output.consoleError "e",
         Output.reportSent "e"
           [("osVersion", "os-x"), ("guid", "guid-1")] none]
    ∧ rget [("osVersion", "os-x"), ("guid", "guid-1")]
        "lastUnhandledRejection" = none := by
  refine ⟨rfl, ?_, rfl⟩
  decide

/-- C5 amended: the most recent unhandled rejection text and timestamp
are included precisely when a rejection has been recorded AND the current
snapshot is non-null (and readable); with a null snapshot the keys are
always absent. Stated for a report built with no caller-supplied context
entries. -/
theorem c5_rejection_keys_with_snapshot (env : Env) (g : Globals)
    (err : String) (nf : Option Bool)
    (s : FAppState) (cb cp fo : Option String) (sel : Option SelectedState)
    (wf : Bool) (z : ℚ) (es rs ac : List String) (ws : String) (th : Bool)
    (hdev : env.dev = false) (htest : env.testEnv = false)
    (hs : g.currentState = some s)
    (h1 : s.currentBanner = .ok cb) (h2 : s.currentPopup = .ok cp)
    (h3 : s.selectedState = .ok sel) (h4 : s.currentFoldout = .ok fo)
    (h5 : s.showWelcomeFlow = .ok wf) (h6 : s.windowZoomFactor = .ok z)
    (h7 : s.errors = .ok es) (h8 : s.repositories = .ok rs)
    (h9 : s.windowState = .ok ws) (h10 : s.accounts = .ok ac)
    (h11 : s.automaticallySwitchTheme = .ok th) :
    sendErrorWithContext env g err [] nf =
      [Output.consoleError (env.sourceMapped err),
       Output.reportSent (env.sourceMapped err) (builtContext env g []) nf]
    ∧ ((rget (builtContext env g []) "lastUnhandledRejection").isSome ↔
      g.lastUnhandledRejection.isSome ∧ g.lastUnhandledRejectionTime.isSome)
    ∧ ((rget (builtContext env g []) "lastUnhandledRejectionTime").isSome ↔
      g.lastUnhandledRejection.isSome ∧ g.lastUnhandledRejectionTime.isSome)
    ∧ rget (builtContext env { g with currentState := none } [])
        "lastUnhandledRejection" = none
    ∧ rget (builtContext env { g with currentState := none } [])
        "lastUnhandledRejectionTime" = none := by
  obtain ⟨cs, lur, lurT⟩ := g
  simp only at hs
  subst hs
  refine ⟨by simp [sendErrorWithContext, hdev, htest], ?_, ?_, ?_, ?_⟩ <;>
    cases lur <;> cases lurT <;> cases hdw : env.darwin <;>
    simp only [builtContext, extract, runSteps, stepBanner, stepPopup,
      stepSelected, stepFoldout, stepWelcome, stepZoom, stepErrors,
      stepRejection, stepRepositoryCount, stepWindowState, stepAccounts,
      stepTheme, hdw, h1, h2, h3, h4, h5, h6, h7, h8, h9, h10, h11,
      mkExtra_nil, Bool.false_eq_true, if_false, if_true] <;>
    simp [rget_elim, rget_ite, rget_rset, optElim_const, rget]

theorem c5_rejection_keys_with_snapshot_witness :
    env0.dev = false
    ∧ (⟨some sDefault, some "boom", some 5⟩ : Globals).currentState =
        some sDefault ∧
    (sendErrorWithContext env0 ⟨some sDefault, some "boom", some 5⟩ "e"
        [] none =
      [Output.consoleError "e",
       Output.reportSent "e"
         (builtContext env0 ⟨some sDefault, some "boom", some 5⟩ []) none]
    ∧ ((rget (builtContext env0 ⟨some sDefault, some "boom", some 5⟩ [])
        "lastUnhandledRejection").isSome ↔
      (some "boom" : Option String).isSome ∧ (some 5 : Option Nat).isSome)
    ∧ ((rget (builtContext env0 ⟨some sDefault, some "boom", some 5⟩ [])
        "lastUnhandledRejectionTime").isSome ↔
      (some "boom" : Option String).isSome ∧ (some 5 : Option Nat).isSome)
    ∧ rget (builtContext env0 ⟨none, some "boom", some 5⟩ [])
        "lastUnhandledRejection" = none
    ∧ rget (builtContext env0 ⟨none, some "boom", some 5⟩ [])
        "lastUnhandledRejectionTime" = none) :=
  ⟨rfl, rfl,
    c5_rejection_keys_with_snapshot env0
      ⟨some sDefault, some "boom", some 5⟩ "e" none sDefault none none none
      none false 1 [] ["a", "b"] ["acct"] "normal" false rfl rfl rfl rfl
      rfl rfl rfl rfl rfl rfl rfl rfl rfl rfl⟩

/-- C10: collisions in the built context resolve by construction order,
for every production report over any readable snapshot and any
caller-supplied context: a caller-supplied entry for osVersion or guid
(with no later caller entry for the same key) overrides the baseline
value, since the snapshot-derived assignments never write those keys;
and a snapshot-derived assignment overrides any caller-supplied value
for the same key, shown for the unconditionally written keys
repositoryCount, windowState and accounts and for the conditionally
written currentBanner key of a snapshot with a non-null banner. -/
theorem c10_collision_override_order (env : Env) (g : Globals)
    (err : String) (nf : Option Bool)
    (ctx ctx1 ctx2 ctx3 ctx4 : List (String × String))
    (v w bval : String) (s : FAppState) (cp fo : Option String)
    (sel : Option SelectedState) (wf : Bool) (z : ℚ)
    (es rs ac : List String) (ws : String) (th : Bool)
    (hdev : env.dev = false) (htest : env.testEnv = false)
    (hs : g.currentState = some s)
    (h1 : s.currentBanner = .ok (some bval)) (h2 : s.currentPopup = .ok cp)
    (h3 : s.selectedState = .ok sel) (h4 : s.currentFoldout = .ok fo)
    (h5 : s.showWelcomeFlow = .ok wf) (h6 : s.windowZoomFactor = .ok z)
    (h7 : s.errors = .ok es) (h8 : s.repositories = .ok rs)
    (h9 : s.windowState = .ok ws) (h10 : s.accounts = .ok ac)
    (h11 : s.automaticallySwitchTheme = .ok th)
    (hc2 : ∀ kv ∈ ctx2, kv.1 ≠ "osVersion")
    (hc4 : ∀ kv ∈ ctx4, kv.1 ≠ "guid") :
    rget (builtContext env g (ctx1 ++ ("osVersion", v) :: ctx2))
        "osVersion" = some v
    ∧ rget (builtContext env g (ctx3 ++ ("guid", w) :: ctx4)) "guid" =
        some w
    ∧ rget (builtContext env g ctx) "repositoryCount" =
        some (toString rs.length)
    ∧ rget (builtContext env g ctx) "windowState" = some ws
    ∧ rget (builtContext env g ctx) "accounts" = some (toString ac.length)
    ∧ rget (builtContext env g ctx) "currentBanner" = some bval
    ∧ sendErrorWithContext env g err ctx nf =
      [Output.consoleError (env.sourceMapped err),
       Output.reportSent (env.sourceMapped err) (builtContext env g ctx)
         nf] := by
  refine ⟨?_, ?_, ?_, ?_, ?_, ?_,
    by simp [sendErrorWithContext, hdev, htest]⟩ <;>
    cases hdw : env.darwin <;>
    simp only [builtContext, hs, extract, extractSteps, runSteps,
      stepBanner, stepPopup, stepSelected, stepFoldout, stepWelcome,
      stepZoom, stepErrors, stepRejection, stepRepositoryCount,
      stepWindowState, stepAccounts, stepTheme, hdw, h1, h2, h3, h4, h5,
      h6, h7, h8, h9, h10, h11, Bool.false_eq_true, if_false, if_true] <;>
    simp [rget_elim, rget_ite, rget_rset, optElim_const] <;>
    first
      | exact rget_mkExtra_last env ctx1 ctx2 _ _ hc2
      | exact rget_mkExtra_last env ctx3 ctx4 _ _ hc4

theorem c10_collision_override_order_witness :
    env0.dev = false
    ∧ sBanner.currentBanner = Except.ok (some "update-available")
    ∧ (∀ kv ∈ [("other", "o")], kv.1 ≠ "osVersion")
    ∧ (rget (builtContext env0 ⟨some sBanner, none, none⟩
          [("osVersion", "my-os"), ("other", "o")]) "osVersion" =
        some "my-os"
    ∧ rget (builtContext env0 ⟨some sBanner, none, none⟩
          [("k3", "v3"), ("guid", "my-guid")]) "guid" = some "my-guid"
    ∧ rget (builtContext env0 ⟨some sBanner, none, none⟩
          [("repositoryCount", "999"), ("currentBanner", "fake"),
           ("windowState", "w-fake"), ("accounts", "a-fake")])
          "repositoryCount" = some (toString (["a", "b"] : List String).length)
    ∧ rget (builtContext env0 ⟨some sBanner, none, none⟩
          [("repositoryCount", "999"), ("currentBanner", "fake"),
           ("windowState", "w-fake"), ("accounts", "a-fake")])
          "windowState" = some "normal"
    ∧ rget (builtContext env0 ⟨some sBanner, none, none⟩
          [("repositoryCount", "999"), ("currentBanner", "fake"),
           ("windowState", "w-fake"), ("accounts", "a-fake")])
          "accounts" = some (toString (["acct"] : List String).length)
    ∧ rget (builtContext env0 ⟨some sBanner, none, none⟩
          [("repositoryCount", "999"), ("currentBanner", "fake"),
           ("windowState", "w-fake"), ("accounts", "a-fake")])
          "currentBanner" = some "update-available"
    ∧ sendErrorWithContext env0 ⟨some sBanner, none, none⟩ "e"
          [("repositoryCount", "999"), ("currentBanner", "fake"),
           ("windowState", "w-fake"), ("accounts", "a-fake")] none =
        [Output.consoleError "e",
         Output.reportSent "e"
           (builtContext env0 ⟨some sBanner, none, none⟩
             [("repositoryCount", "999"), ("currentBanner", "fake"),
              ("windowState", "w-fake"), ("accounts", "a-fake")]) none]) :=
  ⟨rfl, rfl, by decide,
    c10_collision_override_order env0 ⟨some sBanner, none, none⟩ "e" none
      [("repositoryCount", "999"), ("currentBanner", "fake"),
       ("windowState", "w-fake"), ("accounts", "a-fake")]
      [] [("other", "o")] [("k3", "v3")] []
      "my-os" "my-guid" "update-available" sBanner none none none false 1
      [] ["a", "b"] ["acct"] "normal" false rfl rfl rfl rfl rfl rfl rfl
      rfl rfl rfl rfl rfl rfl rfl (by decide) (by decide)⟩

end GitDesktop
